import Mathlib

/-!
Shallow embedding of the post-payment fulfillment workflow of the
chaosstickers backend (webhookController.ts, orderController.ts,
printifyService.ts, prisma schema) and proofs of the specified
properties. External collaborators (JSON.parse, the Stripe SDK,
the Printify HTTP API, the Resend mailer) are modelled as oracle
functions supplied in an environment record; the datastore is an
explicit state threaded through the handler, with the schema's
unique constraints enforced by the modelled prisma operations.
-/

namespace ChaosStickers

/-- Decidable equality of modelled call outcomes, used to evaluate
witnesses on concrete inputs. -/
def exceptDecEq {e a : Type} [DecidableEq e] [DecidableEq a] :
    (x y : Except e a) → Decidable (x = y)
  | .ok x, .ok y =>
    if h : x = y then .isTrue (by rw [h]) else .isFalse (fun he => h (by injection he))
  | .error x, .error y =>
    if h : x = y then .isTrue (by rw [h]) else .isFalse (fun he => h (by injection he))
  | .ok _, .error _ => .isFalse (fun he => Except.noConfusion he)
  | .error _, .ok _ => .isFalse (fun he => Except.noConfusion he)

instance {e a : Type} [DecidableEq e] [DecidableEq a] : DecidableEq (Except e a) :=
  exceptDecEq

/-- The .startsWith() check of the upload URL guard, modelled
executably over the character list. -/
def jsStartsWith (s pre : String) : Bool := pre.data.isPrefixOf s.data

/-- The .trim() applied to the customer name, modelled executably over
the character list: leading and trailing whitespace removed. -/
def jsTrim (s : String) : String :=
  .mk ((s.data.dropWhile Char.isWhitespace).reverse.dropWhile Char.isWhitespace).reverse

/-- JSON-like values as produced by JSON.parse; numbers are rationals
(JavaScript numbers, as used by the metadata items array). -/
inductive Json where
  | null : Json
  | bool (b : Bool) : Json
  | num (q : ℚ) : Json
  | str (s : String) : Json
  | arr (xs : List Json) : Json
  | obj (fields : List (String × Json)) : Json

/-- JavaScript truthiness of a JSON value. -/
def Json.truthy : Json → Bool
  | .null => false
  | .bool b => b
  | .num q => q != 0
  | .str s => s != ""
  | .arr _ => true
  | .obj _ => true

/-- JavaScript member access: a field of an object, undefined (none)
for a missing field or a non-object receiver. -/
def Json.field : Json → String → Option Json
  | .obj fs, k => (fs.find? (fun p => p.1 == k)).map Prod.snd
  | _, _ => none

/-- typeof x === number, for a possibly-undefined value. -/
def isNumField : Option Json → Bool
  | some (.num _) => true
  | _ => false

/-- JavaScript truthiness of a possibly-undefined value. -/
def optTruthy : Option Json → Bool
  | some j => j.truthy
  | none => false

/-- JavaScript truthiness of a possibly-null string. -/
def strOptTruthy : Option String → Bool
  | some s => s != ""
  | none => false

/-- A metadata line item that passed validation: numeric image id and
floored quantity (webhookController.ts lines 118-130). -/
structure ValidItem where
  id : ℚ
  quantity : ℤ
deriving DecidableEq, Repr

/-- The error message thrown for an invalid item (webhookController.ts line 126). -/
def itemErrMsg (index : Nat) : String :=
  "Invalid structure, type (id should be number), or quantity for item at index " ++ toString index ++ "."

/-- Per-item validation and quantity flooring, translated from the
forEach body at webhookController.ts lines 118-130: the item must be
truthy, its id a number, its quantity a truthy number at least 1;
the quantity is then floored. -/
def checkItem (index : Nat) (j : Json) : Except String ValidItem :=
  if !j.truthy then .error (itemErrMsg index)
  else
    match j.field "id", j.field "quantity" with
    | some (.num i), some (.num q) =>
      if q == 0 || decide (q < 1) then .error (itemErrMsg index)
      else .ok { id := i, quantity := Rat.floor q }
    | _, _ => .error (itemErrMsg index)

/-- Validate each item in order, failing the whole extraction at the
first offending index (the forEach throw aborts the loop). -/
def checkItemList (index : Nat) : List Json → Except String (List ValidItem)
  | [] => .ok []
  | j :: rest => do
    let v ← checkItem index j
    let vs ← checkItemList (index + 1) rest
    .ok (v :: vs)

/-- Validation of the parsed items metadata (webhookController.ts lines
113-130): must be a non-empty array, each element item-valid. -/
def validateItems (j : Json) : Except String (List ValidItem) :=
  match j with
  | .arr xs =>
    if xs.isEmpty then .error "Parsed items metadata is not a valid non-empty array."
    else checkItemList 0 xs
  | _ => .error "Parsed items metadata is not a valid non-empty array."

/-- Shipping details as carried in the checkout session metadata
(webhookController.ts lines 13-24). -/
structure ShippingDetails where
  first_name : String
  last_name : String
  email : String
  phone : String
  country : String
  region : String
  address1 : String
  address2 : Option String
  city : String
  zip : String
deriving DecidableEq, Repr

/-- A GeneratedImage row (prisma schema). -/
structure GeneratedImage where
  id : ℤ
  prompt : String
  imageUrl : String
  noBackgroundUrl : Option String
  hasRemovedBackground : Bool
deriving DecidableEq, Repr

/-- URL preference rule, translated from webhookController.ts line 187:
prefer noBackgroundUrl when the flag is set and the value is truthy
(non-null and non-empty), otherwise the primary imageUrl. -/
def urlToUse (img : GeneratedImage) : String :=
  if img.hasRemovedBackground && strOptTruthy img.noBackgroundUrl
  then img.noBackgroundUrl.getD ""
  else img.imageUrl

/-- Build the id-to-url lookup map (webhookController.ts lines 184-194):
an image contributes an entry only when its resolved URL is truthy. -/
def buildImageUrlMap : List GeneratedImage → List (ℚ × String)
  | [] => []
  | img :: rest =>
    let u := urlToUse img
    if u != "" then ((img.id : ℚ), u) :: buildImageUrlMap rest
    else buildImageUrlMap rest

/-- A line item with its materialized image URL. -/
structure MatItem where
  id : ℚ
  quantity : ℤ
  imageUrl : String
deriving DecidableEq, Repr

/-- The error thrown when a line item has no usable URL
(webhookController.ts line 200). -/
def imageNotFoundMsg (id : ℚ) : String :=
  "Image URL not found in database for item ID: " ++ toString id

/-- Assign fetched URLs to the items (webhookController.ts lines
197-203), failing at the first item whose id has no map entry. -/
def assignUrls (m : List (ℚ × String)) : List ValidItem → Except String (List MatItem)
  | [] => .ok []
  | it :: rest =>
    match (m.find? (fun p => p.1 == it.id)).map Prod.snd with
    | none => .error (imageNotFoundMsg it.id)
    | some u => (assignUrls m rest).map
        (fun ms => { id := it.id, quantity := it.quantity, imageUrl := u } :: ms)

/-- A User row (prisma schema: email unique, name nullable). -/
structure User where
  id : ℕ
  email : String
  name : Option String
deriving DecidableEq, Repr

/-- An OrderItem row (prisma schema). -/
structure OrderItem where
  id : ℕ
  orderId : ℕ
  printifyProductId : String
  printifyVariantId : ℤ
  quantity : ℤ
  imageUrl : String
deriving DecidableEq, Repr

/-- An Order row with its items (prisma schema: stripePaymentId unique,
nullable shipping snapshot columns). -/
structure Order where
  id : ℕ
  userId : ℕ
  printifyOrderId : Option String
  stripePaymentId : Option String
  status : String
  items : List OrderItem
  shippingFirstName : Option String
  shippingLastName : Option String
  shippingEmail : Option String
  shippingPhone : Option String
  shippingCountry : Option String
  shippingRegion : Option String
  shippingAddress1 : Option String
  shippingAddress2 : Option String
  shippingCity : Option String
  shippingZip : Option String
deriving DecidableEq, Repr

/-- The relational store: rows plus autoincrement counters. -/
structure Db where
  users : List User
  generatedImages : List GeneratedImage
  orders : List Order
  nextUserId : ℕ
  nextOrderId : ℕ
  nextOrderItemId : ℕ
deriving DecidableEq, Repr

/-- prisma.user.upsert keyed on email (webhookController.ts lines
156-165): update the name when the email exists, else create. -/
def Db.userUpsert (db : Db) (sa : ShippingDetails) : User × Db :=
  let nm := jsTrim (sa.first_name ++ " " ++ sa.last_name)
  match db.users.find? (fun u => u.email == sa.email) with
  | some u =>
    ({ u with name := some nm },
     { db with users := db.users.map (fun v => if v.email == sa.email then { v with name := some nm } else v) })
  | none =>
    let u : User := { id := db.nextUserId, email := sa.email, name := some nm }
    (u, { db with users := db.users ++ [u], nextUserId := db.nextUserId + 1 })

/-- Data for one OrderItem row in the createMany payload
(webhookController.ts lines 268-284). -/
structure OrderItemData where
  printifyProductId : String
  printifyVariantId : ℤ
  quantity : ℤ
  imageUrl : String
deriving DecidableEq, Repr

/-- shippingAddress.address2 or null (webhookController.ts line 306):
an empty string is falsy in JavaScript and becomes null. -/
def addr2OrNull : Option String → Option String
  | some s => if s == "" then none else some s
  | none => none

/-- prisma.order.create with nested createMany (webhookController.ts
lines 286-313) against the schema's unique constraint on
stripePaymentId: fails when a row with the same payment id exists,
otherwise inserts the order and its items atomically. -/
def Db.orderCreate (db : Db) (userId : ℕ) (printifyOrderId : String)
    (stripePaymentId : String) (status : String) (ds : List OrderItemData)
    (sa : ShippingDetails) : Except String (Order × Db) :=
  if db.orders.any (fun o => o.stripePaymentId == some stripePaymentId) then
    .error "Unique constraint failed on the fields: (stripePaymentId)"
  else
    let oid := db.nextOrderId
    let newItems := ds.enum.map (fun p =>
      ({ id := db.nextOrderItemId + p.1, orderId := oid,
         printifyProductId := p.2.printifyProductId,
         printifyVariantId := p.2.printifyVariantId,
         quantity := p.2.quantity, imageUrl := p.2.imageUrl } : OrderItem))
    let o : Order :=
      { id := oid, userId := userId,
        printifyOrderId := some printifyOrderId,
        stripePaymentId := some stripePaymentId,
        status := status, items := newItems,
        shippingFirstName := some sa.first_name,
        shippingLastName := some sa.last_name,
        shippingEmail := some sa.email,
        shippingPhone := some sa.phone,
        shippingCountry := some sa.country,
        shippingRegion := some sa.region,
        shippingAddress1 := some sa.address1,
        shippingAddress2 := addr2OrNull sa.address2,
        shippingCity := some sa.city,
        shippingZip := some sa.zip }
    .ok (o,
      { db with
        orders := db.orders ++ [o],
        nextOrderId := oid + 1,
        nextOrderItemId := db.nextOrderItemId + ds.length })

/-- Result of printifyService.createProduct as consumed by the webhook
handler (productId, variantId, providerId). -/
structure ProductResult where
  productId : String
  variantId : ℤ
  providerId : ℤ
deriving DecidableEq, Repr

/-- One line item of the vendor order request
(webhookController.ts lines 242-246). -/
structure VendorLineItem where
  product_id : String
  variant_id : ℤ
  quantity : ℤ
deriving DecidableEq, Repr

/-- The vendor order request assembled by the webhook handler
(webhookController.ts lines 252-256). -/
structure VendorOrderReq where
  shippingAddress : ShippingDetails
  external_id : String
  line_items : List VendorLineItem
deriving DecidableEq, Repr

/-- The checkout session as seen by the handler: metadata strings and
the payment intent id (none models both absence and a non-string
payment_intent, per the typeof check at line 83). -/
structure CheckoutSession where
  id : String
  shipping_details : Option String
  items : Option String
  payment_intent : Option String
deriving DecidableEq, Repr

/-- A decoded Stripe event. -/
structure StripeEvent where
  id : String
  type : String
  session : CheckoutSession
deriving DecidableEq, Repr

/-- Oracles for the external collaborators of the webhook handler:
JSON.parse on the two metadata strings (with the untyped cast to
ShippingDetails the source performs), the two printifyService calls,
and the Resend mailer; each returns the outcome of that call. -/
structure Env where
  parseShipping : String → Except String ShippingDetails
  parseItems : String → Except String Json
  createProduct : String → Except String ProductResult
  createOrder : VendorOrderReq → Except String String
  sendEmail : String → Except String Unit

/-- Response bodies sent by the webhook handler. -/
inductive RespBody where
  | text (s : String)
  | jsonError (e : String)
  | jsonReceived (message : Option String) (orderId : Option ℕ)
deriving DecidableEq, Repr

/-- An HTTP response: status code and body. -/
structure Response where
  status : ℕ
  body : RespBody
deriving DecidableEq, Repr

/-- Externally observable side-effect calls issued by the handler, in
program order. -/
inductive Effect where
  | orderFindFirst (stripePaymentId : String)
  | userUpsert (email : String)
  | imageFindMany (ids : List ℚ)
  | vendorCreateProduct (imageUrl : String)
  | vendorCreateOrder (externalId : String)
  | orderCreate (stripePaymentId : String)
  | emailSend (recipient : String)
deriving DecidableEq, Repr

/-- A line item annotated with its vendor product and variant ids
after provisioning. -/
structure ProvItem where
  id : ℚ
  quantity : ℤ
  imageUrl : String
  printifyProductId : String
  printifyVariantId : ℤ
deriving DecidableEq, Repr

/-- Provision one item (the Promise.all callback body,
webhookController.ts lines 215-228): guard the fetched URL, call
createProduct, validate the returned ids. -/
def provisionItem (env : Env) (it : MatItem) : Except String ProvItem :=
  if it.imageUrl == "" then
    .error ("Missing image URL for item ID " ++ toString it.id ++ " before creating Printify product.")
  else
    match env.createProduct it.imageUrl with
    | .error m => .error m
    | .ok r =>
      if r.productId == "" || r.variantId == 0 then
        .error ("Failed to create Printify product or received invalid IDs for item " ++ toString it.id ++ " (Image: " ++ it.imageUrl ++ ")")
      else .ok { id := it.id, quantity := it.quantity, imageUrl := it.imageUrl,
                 printifyProductId := r.productId, printifyVariantId := r.variantId }

/-- Promise.all dispatches every request before the stage settles, so a
createProduct call effect is recorded for each item whose URL guard
passes, independent of individual outcomes. -/
def provisionEffects (ms : List MatItem) : List Effect :=
  (ms.filter (fun it => it.imageUrl != "")).map (fun it => .vendorCreateProduct it.imageUrl)

/-- Settle the concurrently-dispatched results: the stage succeeds only
when all items did, and otherwise reports a failing item (taken first
in array order, a determinization of which rejection Promise.all
surfaces). -/
def collectAll : List (Except String ProvItem) → Except String (List ProvItem)
  | [] => .ok []
  | .error m :: _ => .error m
  | .ok v :: rest => (collectAll rest).map (v :: ·)

/-- Materialization outcome for the given store and items: the batch
image fetch (webhookController.ts lines 175-181) followed by map
building and URL assignment. -/
def materializeOutcome (db : Db) (items : List ValidItem) : Except String (List MatItem) :=
  let itemIds := items.map (·.id)
  let images := db.generatedImages.filter (fun img => itemIds.contains ((img.id : ℚ)))
  assignUrls (buildImageUrlMap images) items

/-- Build the vendor order line items (webhookController.ts lines
237-247), with the defensive missing-ids throw. -/
def mkVendorLineItems : List ProvItem → Except String (List VendorLineItem)
  | [] => .ok []
  | p :: rest =>
    if p.printifyProductId == "" || p.printifyVariantId == 0 then
      .error ("Missing Printify IDs for item " ++ toString p.id ++ " before creating Printify order.")
    else (mkVendorLineItems rest).map
      (fun ls => ({ product_id := p.printifyProductId, variant_id := p.printifyVariantId,
                    quantity := p.quantity } : VendorLineItem) :: ls)

/-- Build the createMany payload (webhookController.ts lines 268-284)
with its defensive throws, which land in the surrounding database
try-catch. -/
def mkOrderItemsData : List ProvItem → Except String (List OrderItemData)
  | [] => .ok []
  | it :: rest =>
    if it.printifyProductId == "" || it.printifyVariantId == 0 then
      .error ("Missing Printify IDs for item " ++ toString it.id ++ " before saving to DB.")
    else if it.imageUrl == "" then
      .error ("Missing image URL for item " ++ toString it.id ++ " before saving OrderItem to DB.")
    else (mkOrderItemsData rest).map
      (fun ds => ({ printifyProductId := it.printifyProductId,
                    printifyVariantId := it.printifyVariantId,
                    quantity := it.quantity, imageUrl := it.imageUrl } : OrderItemData) :: ds)

/-- The final persistence stage (webhookController.ts lines 263-318):
build the item rows and run prisma.order.create inside a try-catch
whose catch maps any database error to a 500 response. The effect
records whether the create call was reached. -/
def persistOrderStage (db : Db) (appUserId : ℕ) (printifyOrderId : String)
    (stripePaymentId : String) (sa : ShippingDetails) (ps : List ProvItem) :
    Except Response (Order × Db) × List Effect :=
  match mkOrderItemsData ps with
  | .error m =>
    (.error { status := 500, body := .jsonError ("Webhook processing failed: Database error - " ++ m) }, [])
  | .ok ds =>
    match db.orderCreate appUserId printifyOrderId stripePaymentId "processing" ds sa with
    | .error m =>
      (.error { status := 500, body := .jsonError ("Webhook processing failed: Database error - " ++ m) },
       [.orderCreate stripePaymentId])
    | .ok (o, db2) => (.ok (o, db2), [.orderCreate stripePaymentId])

/-- Metadata extraction and validation (webhookController.ts lines
79-137): presence checks on the metadata strings and payment intent,
JSON parsing, and item validation; yields the order intent. -/
def extractIntent (env : Env) (session : CheckoutSession) :
    Except Response (ShippingDetails × List ValidItem × String) :=
  if !(strOptTruthy session.shipping_details) || !(strOptTruthy session.items)
     || !(strOptTruthy session.payment_intent) then
    .error { status := 400, body := .jsonError "Webhook Error: Missing required metadata." }
  else
    match env.parseShipping (session.shipping_details.getD "") with
    | .error m =>
      .error { status := 400, body := .jsonError ("Webhook Error: Invalid metadata format - " ++ m) }
    | .ok sa =>
      match env.parseItems (session.items.getD "") with
      | .error m =>
        .error { status := 400, body := .jsonError ("Webhook Error: Invalid metadata format - " ++ m) }
      | .ok itemsJson =>
        match validateItems itemsJson with
        | .error m =>
          .error { status := 400, body := .jsonError ("Webhook Error: Invalid metadata format - " ++ m) }
        | .ok items => .ok (sa, items, session.payment_intent.getD "")

/-- The fulfillment pipeline for a validated intent (webhookController.ts
lines 139-369): idempotency check, user upsert, image materialization,
concurrent vendor product provisioning, vendor order submission,
atomic persistence, fire-and-forget email, acknowledgement. -/
def processIntent (env : Env) (db : Db) (sa : ShippingDetails)
    (items : List ValidItem) (pi : String) : Response × Db × List Effect :=
  let eff0 : List Effect := [.orderFindFirst pi]
  match db.orders.find? (fun o => o.stripePaymentId == some pi) with
  | some _ =>
    ({ status := 200, body := .jsonReceived (some "Order already processed") none }, db, eff0)
  | none =>
    let appUser := (db.userUpsert sa).1
    let db1 := (db.userUpsert sa).2
    let eff1 := eff0 ++ [.userUpsert sa.email]
    let eff2 := eff1 ++ [.imageFindMany (items.map (·.id))]
    match materializeOutcome db1 items with
    | .error m =>
      ({ status := 500, body := .jsonError ("Webhook processing failed: Database error fetching image URLs - " ++ m) }, db1, eff2)
    | .ok ms =>
      let eff3 := eff2 ++ provisionEffects ms
      match collectAll (ms.map (provisionItem env)) with
      | .error m =>
        ({ status := 500, body := .jsonError ("Webhook processing failed: Printify product creation error - " ++ m) }, db1, eff3)
      | .ok ps =>
        match mkVendorLineItems ps with
        | .error m =>
          ({ status := 500, body := .jsonError ("Webhook processing failed unexpectedly: " ++ m) }, db1, eff3)
        | .ok lineItems =>
          let eff4 := eff3 ++ [.vendorCreateOrder pi]
          match env.createOrder { shippingAddress := sa, external_id := pi, line_items := lineItems } with
          | .error m =>
            ({ status := 500, body := .jsonError ("Webhook processing failed: Printify order creation error - " ++ m) }, db1, eff4)
          | .ok printifyOrderId =>
            match persistOrderStage db1 appUser.id printifyOrderId pi sa ps with
            | (.error resp, effP) => (resp, db1, eff4 ++ effP)
            | (.ok (order, db2), effP) =>
              let eff5 := eff4 ++ effP ++ [.emailSend sa.email]
              match env.sendEmail sa.email with
              | .error _ =>
                ({ status := 200, body := .jsonReceived none (some order.id) }, db2, eff5)
              | .ok _ =>
                ({ status := 200, body := .jsonReceived none (some order.id) }, db2, eff5)

/-- The webhook handler (webhookController.ts lines 48-374): secret
configuration gate, signature verification outcome, event type
dispatch, then extraction and processing. -/
def stripeWebhookHandler (env : Env) (secret : String)
    (verify : Except String StripeEvent) (db : Db) : Response × Db × List Effect :=
  if secret == "" then
    ({ status := 500, body := .text "Webhook Error: Server configuration error" }, db, [])
  else
    match verify with
    | .error msg =>
      ({ status := 400, body := .text ("Webhook Error: " ++ msg) }, db, [])
    | .ok event =>
      if event.type == "checkout.session.completed" then
        match extractIntent env event.session with
        | .error resp => (resp, db, [])
        | .ok (sa, items, pi) => processIntent env db sa items pi
      else
        ({ status := 200, body := .jsonReceived (some ("Unhandled event type: " ++ event.type)) none }, db, [])

/-- Modelled from the spec: the Stripe SDK signature verifier
(stripe.webhooks.constructEvent, an external collaborator not in this
repository) validates the signature header as an HMAC over the raw
body under the configured secret, decoding the event on a match and
throwing on a mismatch. The HMAC itself is abstract. -/
def constructEvent (hmac : String → String → String) (secret rawBody sig : String)
    (decoded : StripeEvent) : Except String StripeEvent :=
  if sig == hmac secret rawBody then .ok decoded
  else .error "No signatures found matching the expected signature for payload"

/-- The vendor order object returned by the Printify orders endpoint,
as validated by getOrderStatus (printifyService.ts line 415): id,
status, and the presence of the address_to object. -/
structure PrintifyOrderData where
  id : String
  status : String
  address_to : Bool
deriving DecidableEq, Repr

/-- printifyService.ts getOrderStatus (lines 398-427): requires the
shop id, fetches the order, validates id, status and address_to, and
returns the FULL order data object, not a status string. -/
def getOrderStatus (shopId : String)
    (fetchOrder : String → Except String PrintifyOrderData)
    (orderId : String) : Except String PrintifyOrderData :=
  if shopId == "" then
    .error "Failed to fetch order details: Printify shop ID configuration is missing."
  else
    match fetchOrder orderId with
    | .error m => .error ("Failed to fetch order details: " ++ m)
    | .ok d =>
      if d.id == "" || d.status == "" || !d.address_to then
        .error "Failed to fetch order details: Invalid response received from Printify API when fetching order details."
      else .ok d

/-- The JavaScript value domain of the comparison at
orderController.ts line 122: the left operand is the object returned
by getOrderStatus, the right operand is the stored status string. -/
inductive JsVal where
  | str (s : String)
  | orderObj (d : PrintifyOrderData)
deriving DecidableEq, Repr

/-- JavaScript strict equality on that domain: values of different
runtime types are never strictly equal, and two object values compare
by reference, so a freshly parsed API response object is never equal
to another value. -/
def jsStrictEq : JsVal → JsVal → Bool
  | .str a, .str b => a == b
  | _, _ => false

/-- prisma.order.update setting the status column
(orderController.ts lines 123-130). Prisma validates scalar types at
runtime, so a non-string value for the String column is rejected
(modelled from documented prisma client behavior, external library). -/
def Db.orderUpdateStatus (db : Db) (oid : ℕ) (v : JsVal) : Except String Db :=
  match v with
  | .str s =>
    .ok { db with orders := db.orders.map (fun o => if o.id == oid then { o with status := s } else o) }
  | .orderObj _ => .error "Invalid value provided for field status: expected String"

/-- Responses of the order-status query endpoint. -/
inductive CtrlResult where
  | badRequest400
  | notFound404
  | ok200
  | serverError500
deriving DecidableEq, Repr

/-- Calls issued by the order-status query endpoint. -/
inductive OrderCtrlEffect where
  | orderFindUnique (id : ℕ)
  | vendorFetchOrder (printifyOrderId : String)
  | orderUpdateStatus (id : ℕ) (newStatus : JsVal)
deriving DecidableEq, Repr

/-- orderController.ts getOrderStatusController (lines 92-140): load
the order, require a vendor order id, fetch the vendor order, compare
it against the stored status with JavaScript strict inequality, and
write the fetched value back when they differ. -/
def getOrderStatusController (shopId : String)
    (fetchOrder : String → Except String PrintifyOrderData)
    (db : Db) (orderIdParam : Option ℕ) : CtrlResult × Db × List OrderCtrlEffect :=
  match orderIdParam with
  | none => (.badRequest400, db, [])
  | some oid =>
    match db.orders.find? (fun o => o.id == oid) with
    | none => (.notFound404, db, [.orderFindUnique oid])
    | some order =>
      if !(strOptTruthy order.printifyOrderId) then
        (.badRequest400, db, [.orderFindUnique oid])
      else
        let poid := order.printifyOrderId.getD ""
        match getOrderStatus shopId fetchOrder poid with
        | .error _ => (.serverError500, db, [.orderFindUnique oid, .vendorFetchOrder poid])
        | .ok pdata =>
          let printifyStatus : JsVal := .orderObj pdata
          if !(jsStrictEq printifyStatus (.str order.status)) then
            match db.orderUpdateStatus order.id printifyStatus with
            | .error _ =>
              (.serverError500, db,
               [.orderFindUnique oid, .vendorFetchOrder poid, .orderUpdateStatus order.id printifyStatus])
            | .ok db2 =>
              (.ok200, db2,
               [.orderFindUnique oid, .vendorFetchOrder poid, .orderUpdateStatus order.id printifyStatus])
          else
            (.ok200, db, [.orderFindUnique oid, .vendorFetchOrder poid])

/-- The hard-coded fallback test image URL
(printifyService.ts line 199). -/
def testImageUrl : String :=
  "https://images.unsplash.com/photo-1518791841217-8f162f1e1131?ixlib=rb-1.2.1&auto=format&fit=crop&w=800&q=60"

/-- A variant entry of the Printify variants catalog response. -/
structure PrintifyVariantInfo where
  id : ℤ
  title : String
deriving DecidableEq, Repr

/-- Oracles for the Printify HTTP calls made by createProduct:
the image upload (argument is the url sent, result the upload id),
the variants catalog fetch for a blueprint and provider, and the
product creation post (result the new product id). -/
structure PrintifyServiceEnv where
  uploadImage : String → Except String String
  getVariants : ℤ → ℤ → Except String (List PrintifyVariantInfo)
  postProduct : ℤ → ℤ → ℤ → String → Except String String

/-- HTTP calls issued by createProduct, in program order. -/
inductive PrintifyCallEffect where
  | upload (url : String)
  | variants (blueprintId providerId : ℤ)
  | productPost (blueprintId providerId variantId : ℤ) (imageId : String)
deriving DecidableEq, Repr

/-- The URL actually sent to the Printify upload endpoint
(printifyService.ts lines 196-200): an empty URL or one not starting
with http is silently replaced by the hard-coded test image. -/
def effectiveUploadUrl (imageUrl : String) : String :=
  if imageUrl == "" || !(jsStartsWith imageUrl "http") then testImageUrl else imageUrl

/-- printifyService.ts uploadImageToPrintify (lines 191-215): swap in
the fallback URL when invalid, post the upload, wrap any failure. -/
def uploadImageToPrintify (env : PrintifyServiceEnv) (imageUrl : String) :
    Except String String × List PrintifyCallEffect :=
  let url := effectiveUploadUrl imageUrl
  match env.uploadImage url with
  | .error _ => (.error "Failed to upload image to Printify", [.upload url])
  | .ok uploadId => (.ok uploadId, [.upload url])

/-- printifyService.ts createProduct (lines 247-334): upload the image,
fetch variants for blueprint 1268 and provider 215, select the first
variant, create the product, returning product id, variant id and
provider id; any failure is wrapped in the createProduct error. -/
def createProduct (env : PrintifyServiceEnv) (imageUrl : String) :
    Except String ProductResult × List PrintifyCallEffect :=
  let blueprintId : ℤ := 1268
  let providerId : ℤ := 215
  match uploadImageToPrintify env imageUrl with
  | (.error m, effs) => (.error ("Failed to create Printify product: " ++ m), effs)
  | (.ok imageId, effs) =>
    let effs1 := effs ++ [.variants blueprintId providerId]
    match env.getVariants blueprintId providerId with
    | .error m => (.error ("Failed to create Printify product: " ++ m), effs1)
    | .ok variants =>
      match variants with
      | [] =>
        (.error "Failed to create Printify product: No variants found for blueprint 1268 and provider 215", effs1)
      | v0 :: _ =>
        let selectedVariantId := v0.id
        if selectedVariantId == 0 then
          (.error "Failed to create Printify product: Could not determine a valid variant ID.", effs1)
        else
          let effs2 := effs1 ++ [.productPost blueprintId providerId selectedVariantId imageId]
          match env.postProduct blueprintId providerId selectedVariantId imageId with
          | .error m => (.error ("Failed to create Printify product: " ++ m), effs2)
          | .ok pid =>
            if pid == "" then
              (.error "Failed to create Printify product: Failed to create product or received invalid response", effs2)
            else
              (.ok { productId := pid, variantId := selectedVariantId, providerId := providerId }, effs2)

/-! ### Concrete fixtures used by witnesses and counterexamples -/

/-- A concrete shipping address. -/
def sa0 : ShippingDetails :=
  { first_name := "Ada", last_name := "L", email := "ada@example.com", phone := "1",
    country := "US", region := "TX", address1 := "1 Main", address2 := none,
    city := "Austin", zip := "78701" }

/-- A generated image without background removal. -/
def img10 : GeneratedImage :=
  { id := 10, prompt := "cat", imageUrl := "http://img/10.png",
    noBackgroundUrl := none, hasRemovedBackground := false }

/-- A generated image with a background-removed URL. -/
def img11 : GeneratedImage :=
  { id := 11, prompt := "dog", imageUrl := "http://img/11.png",
    noBackgroundUrl := some "http://img/11-nobg.png", hasRemovedBackground := true }

/-- A store holding both images and no orders. -/
def db0 : Db :=
  { users := [], generatedImages := [img10, img11], orders := [],
    nextUserId := 1, nextOrderId := 1, nextOrderItemId := 1 }

/-- The parsed items metadata of the two-item scenario. -/
def itemsJson0 : Json :=
  .arr [ .obj [("id", .num 10), ("quantity", .num 1)],
         .obj [("id", .num 11), ("quantity", .num 3)] ]

/-- An environment in which every external call succeeds. -/
def env0 : Env :=
  { parseShipping := fun s => if s == "SHIP" then .ok sa0 else .error "Unexpected token",
    parseItems := fun s => if s == "ITEMS" then .ok itemsJson0 else .error "Unexpected token",
    createProduct := fun url => .ok { productId := "prod-" ++ url, variantId := 77, providerId := 215 },
    createOrder := fun _ => .ok "po_1",
    sendEmail := fun _ => .ok () }

/-- A verified checkout-completed event carrying the metadata of the
two-item scenario and payment intent pi_1. -/
def ev0 : StripeEvent :=
  { id := "evt_1", type := "checkout.session.completed",
    session := { id := "cs_1", shipping_details := some "SHIP", items := some "ITEMS",
                 payment_intent := some "pi_1" } }

/-- The order persisted by a successful run for payment intent pi_1. -/
def orderA : Order :=
  { id := 1, userId := 1, printifyOrderId := some "po_1",
    stripePaymentId := some "pi_1", status := "processing", items := [],
    shippingFirstName := none, shippingLastName := none, shippingEmail := none,
    shippingPhone := none, shippingCountry := none, shippingRegion := none,
    shippingAddress1 := none, shippingAddress2 := none, shippingCity := none,
    shippingZip := none }

/-- The store after an order for pi_1 has already been committed. -/
def db1x : Db :=
  { users := [{ id := 1, email := "ada@example.com", name := some "Ada L" }],
    generatedImages := [img10, img11], orders := [orderA],
    nextUserId := 2, nextOrderId := 2, nextOrderItemId := 3 }

/-- An image whose primary and background-removed URLs are both empty. -/
def imgE : GeneratedImage :=
  { id := 12, prompt := "x", imageUrl := "",
    noBackgroundUrl := some "", hasRemovedBackground := true }

/-- The single validated item referencing imgE. -/
def itE : ValidItem := { id := 12, quantity := 1 }

/-- Items metadata referencing image id 12. -/
def itemsJsonE : Json := .arr [ .obj [("id", .num 12), ("quantity", .num 1)] ]

/-- Environment whose items metadata parses to the single item 12. -/
def envE : Env :=
  { env0 with parseItems := fun s => if s == "ITEMS" then .ok itemsJsonE else .error "Unexpected token" }

/-- Event for payment intent pi_9 with the same metadata strings. -/
def evE : StripeEvent :=
  { id := "evt_9", type := "checkout.session.completed",
    session := { id := "cs_9", shipping_details := some "SHIP", items := some "ITEMS",
                 payment_intent := some "pi_9" } }

/-- Store holding only the empty-URL image. -/
def dbE : Db :=
  { users := [], generatedImages := [imgE], orders := [],
    nextUserId := 1, nextOrderId := 1, nextOrderItemId := 1 }

/-- A well-shaped items entry with numeric id and quantity. -/
def mkItemJson (i q : ℚ) : Json := .obj [("id", .num i), ("quantity", .num q)]

/-- Items metadata whose second entry has quantity 0. -/
def itemsJsonQ : Json := .arr [mkItemJson 10 1, mkItemJson 11 0]

/-- Environment whose items metadata parses to itemsJsonQ. -/
def envQ : Env :=
  { env0 with parseItems := fun s => if s == "ITEMS" then .ok itemsJsonQ else .error "Unexpected token" }

/-- A concrete (toy) keyed-hash function standing for the abstract HMAC. -/
def hmac0 (secret rawBody : String) : String := secret ++ "/" ++ rawBody

/-- The items extracted from the two-item metadata. -/
def items0 : List ValidItem := [{ id := 10, quantity := 1 }, { id := 11, quantity := 3 }]

/-- Scenario B store: image 11 is absent. -/
def dbB : Db :=
  { users := [], generatedImages := [img10], orders := [],
    nextUserId := 1, nextOrderId := 1, nextOrderItemId := 1 }

/-- Materialized items of the two-item scenario. -/
def ms0 : List MatItem :=
  [{ id := 10, quantity := 1, imageUrl := "http://img/10.png" },
   { id := 11, quantity := 3, imageUrl := "http://img/11-nobg.png" }]

/-- Provisioned items of the two-item scenario. -/
def ps0 : List ProvItem :=
  [{ id := 10, quantity := 1, imageUrl := "http://img/10.png",
     printifyProductId := "prod-http://img/10.png", printifyVariantId := 77 },
   { id := 11, quantity := 3, imageUrl := "http://img/11-nobg.png",
     printifyProductId := "prod-http://img/11-nobg.png", printifyVariantId := 77 }]

/-- Vendor order line items of the two-item scenario. -/
def ls0 : List VendorLineItem :=
  [{ product_id := "prod-http://img/10.png", variant_id := 77, quantity := 1 },
   { product_id := "prod-http://img/11-nobg.png", variant_id := 77, quantity := 3 }]

/-- The order row persisted by the successful two-item run. -/
def orderFull : Order :=
  { id := 1, userId := 1, printifyOrderId := some "po_1",
    stripePaymentId := some "pi_1", status := "processing",
    items := [{ id := 1, orderId := 1, printifyProductId := "prod-http://img/10.png",
                printifyVariantId := 77, quantity := 1, imageUrl := "http://img/10.png" },
              { id := 2, orderId := 1, printifyProductId := "prod-http://img/11-nobg.png",
                printifyVariantId := 77, quantity := 3, imageUrl := "http://img/11-nobg.png" }],
    shippingFirstName := some "Ada", shippingLastName := some "L",
    shippingEmail := some "ada@example.com", shippingPhone := some "1",
    shippingCountry := some "US", shippingRegion := some "TX",
    shippingAddress1 := some "1 Main", shippingAddress2 := none,
    shippingCity := some "Austin", shippingZip := some "78701" }

/-- The store after the successful two-item run. -/
def dbAfterA : Db :=
  { users := [{ id := 1, email := "ada@example.com", name := some "Ada L" }],
    generatedImages := [img10, img11], orders := [orderFull],
    nextUserId := 2, nextOrderId := 2, nextOrderItemId := 3 }

/-- Environment identical to env0 except the mailer always fails. -/
def envFail : Env := { env0 with sendEmail := fun _ => .error "mail service down" }

/-- The createMany payload of the two-item scenario. -/
def ds0 : List OrderItemData :=
  [{ printifyProductId := "prod-http://img/10.png", printifyVariantId := 77,
     quantity := 1, imageUrl := "http://img/10.png" },
   { printifyProductId := "prod-http://img/11-nobg.png", printifyVariantId := 77,
     quantity := 3, imageUrl := "http://img/11-nobg.png" }]

/-- The vendor order object reported for po_1: same status as the
stored order. -/
def pdata8 : PrintifyOrderData := { id := "po_1", status := "processing", address_to := true }

/-- Vendor fetch returning that object for po_1. -/
def fetch8 : String → Except String PrintifyOrderData :=
  fun poid => if poid == "po_1" then .ok pdata8 else .error "Order not found"

/-- A Printify environment in which all calls succeed. -/
def penv0 : PrintifyServiceEnv :=
  { uploadImage := fun u => .ok ("img-" ++ u),
    getVariants := fun _ _ => .ok [{ id := 55, title := "2x2" }],
    postProduct := fun _ _ _ _ => .ok "prodX" }

/-! ### Frame lemmas and claim theorems -/

/-- The user upsert does not touch the orders table. -/
theorem userUpsert_orders (db : Db) (sa : ShippingDetails) :
    (db.userUpsert sa).2.orders = db.orders := by
  unfold Db.userUpsert
  split <;> rfl

/-- The user upsert does not touch the generated images table. -/
theorem userUpsert_genImages (db : Db) (sa : ShippingDetails) :
    (db.userUpsert sa).2.generatedImages = db.generatedImages := by
  unfold Db.userUpsert
  split <;> rfl

/-- Materialization reads only the generated images, so it is
insensitive to the preceding user upsert. -/
theorem materializeOutcome_userUpsert (db : Db) (sa : ShippingDetails)
    (items : List ValidItem) :
    materializeOutcome (db.userUpsert sa).2 items = materializeOutcome db items := by
  unfold materializeOutcome
  rw [userUpsert_genImages]

/-- Unfolding the handler on a verified checkout-completed event whose
extraction succeeds. -/
theorem handler_eq_processIntent (env : Env) (secret : String) (ev : StripeEvent)
    (db : Db) (sa : ShippingDetails) (items : List ValidItem) (pi : String)
    (hs : secret ≠ "")
    (ht : ev.type = "checkout.session.completed")
    (hex : extractIntent env ev.session = .ok (sa, items, pi)) :
    stripeWebhookHandler env secret (.ok ev) db = processIntent env db sa items pi := by
  unfold stripeWebhookHandler
  rw [if_neg (by simpa using hs)]
  dsimp only
  rw [if_pos (by simpa using ht), hex]

/-- C5: the materializer resolves a GeneratedImage to noBackgroundUrl
when hasRemovedBackground is set and noBackgroundUrl is non-empty,
otherwise to imageUrl; and when the resolved URL is empty the workflow
fails with the not-found error naming the item id and a 500 response,
persisting nothing. -/
theorem c5_url_preference :
    (∀ (img : GeneratedImage) (s : String),
       img.hasRemovedBackground = true → img.noBackgroundUrl = some s → s ≠ "" →
       urlToUse img = s) ∧
    (∀ img : GeneratedImage,
       (img.hasRemovedBackground = false ∨ img.noBackgroundUrl = none ∨ img.noBackgroundUrl = some "") →
       urlToUse img = img.imageUrl) ∧
    (∀ (env : Env) (secret : String) (ev : StripeEvent) (db : Db)
       (sa : ShippingDetails) (it : ValidItem) (pi : String) (img : GeneratedImage),
       secret ≠ "" → ev.type = "checkout.session.completed" →
       extractIntent env ev.session = .ok (sa, [it], pi) →
       db.orders.find? (fun o => o.stripePaymentId == some pi) = none →
       db.generatedImages = [img] → (img.id : ℚ) = it.id → urlToUse img = "" →
       (stripeWebhookHandler env secret (.ok ev) db).1 =
         { status := 500,
           body := .jsonError ("Webhook processing failed: Database error fetching image URLs - " ++ imageNotFoundMsg it.id) } ∧
       (stripeWebhookHandler env secret (.ok ev) db).2.1.orders = db.orders) := by
  refine ⟨?_, ?_, ?_⟩
  · intro img s h1 h2 h3
    unfold urlToUse
    rw [h1, h2]
    simp [strOptTruthy, h3]
  · intro img h
    unfold urlToUse
    rcases h with h | h | h
    · rw [h]; simp
    · rw [h]; simp [strOptTruthy]
    · rw [h]; simp [strOptTruthy]
  · intro env secret ev db sa it pi img hs ht hex hnone himgs hid hurl
    have hmat : materializeOutcome db [it] = .error (imageNotFoundMsg it.id) := by
      unfold materializeOutcome
      rw [himgs]
      simp [hid, hurl, buildImageUrlMap, assignUrls]
    rw [handler_eq_processIntent env secret ev db sa [it] pi hs ht hex]
    unfold processIntent
    rw [hnone]
    dsimp only
    rw [materializeOutcome_userUpsert, hmat]
    exact ⟨rfl, userUpsert_orders db sa⟩

/-- Witness for C5 at concrete inputs: the background-removed URL wins
for img11, the primary URL is used for img10, and the empty-URL image
aborts the workflow with the not-found 500. -/
theorem c5_url_preference_witness :
    urlToUse img11 = "http://img/11-nobg.png" ∧
    urlToUse img10 = "http://img/10.png" ∧
    (stripeWebhookHandler envE "whsec" (.ok evE) dbE).1 =
      { status := 500,
        body := .jsonError ("Webhook processing failed: Database error fetching image URLs - " ++ imageNotFoundMsg itE.id) } :=
  ⟨c5_url_preference.1 img11 "http://img/11-nobg.png" rfl rfl (by decide),
   c5_url_preference.2.1 img10 (Or.inl rfl),
   (c5_url_preference.2.2 envE "whsec" evE dbE sa0 itE "pi_9" imgE
     (by decide) rfl rfl rfl rfl (by decide) rfl).1⟩

/-- A well-shaped entry with quantity at least 1 validates, and its
quantity is floored. -/
theorem checkItem_ok (idx : Nat) (i q : ℚ) (h : 1 ≤ q) :
    checkItem idx (mkItemJson i q) = .ok { id := i, quantity := Rat.floor q } := by
  have h0 : (q == 0) = false := by
    rw [beq_eq_false_iff_ne]
    intro hq
    rw [hq] at h
    exact absurd h (by norm_num)
  have h1 : decide (q < 1) = false := by
    simp only [decide_eq_false_iff_not, not_lt]
    exact h
  unfold checkItem mkItemJson
  simp [Json.field, Json.truthy, h0, h1]

/-- A well-shaped entry with quantity below 1 fails item validation. -/
theorem checkItem_err_qty (idx : Nat) (i q : ℚ) (h : q < 1) :
    checkItem idx (mkItemJson i q) = .error (itemErrMsg idx) := by
  unfold checkItem mkItemJson
  simp [Json.field, Json.truthy, h]

/-- An entry with a string id fails item validation. -/
theorem checkItem_err_id (idx : Nat) (s : String) (q : ℚ) :
    checkItem idx (.obj [("id", .str s), ("quantity", .num q)]) = .error (itemErrMsg idx) := by
  unfold checkItem
  simp [Json.field, Json.truthy]

/-- Walking a prefix of valid entries, validation fails with exactly
the error of the entry at the offending index. -/
theorem checkItemList_prefix_err (pre : List (ℚ × ℚ)) (idx : Nat) (j : Json)
    (rest : List Json) (e : String)
    (hpre : ∀ p ∈ pre, 1 ≤ p.2)
    (hj : checkItem (idx + pre.length) j = .error e) :
    checkItemList idx (pre.map (fun p => mkItemJson p.1 p.2) ++ j :: rest) = .error e := by
  induction pre generalizing idx with
  | nil =>
    rw [List.length_nil, Nat.add_zero] at hj
    rw [List.map_nil, List.nil_append]
    simp only [checkItemList]
    rw [hj]
    rfl
  | cons p pre ih =>
    have hp : 1 ≤ p.2 := hpre p (by simp)
    have hj2 : checkItem (idx + 1 + pre.length) j = .error e := by
      rw [show idx + 1 + pre.length = idx + (p :: pre).length by simp; omega]
      exact hj
    have ihr := ih (idx + 1) (fun x hx => hpre x (by simp [hx])) hj2
    unfold checkItemList
    rw [List.map_cons, List.cons_append]
    dsimp only
    rw [checkItem_ok idx p.1 p.2 hp]
    show (checkItemList (idx + 1) (pre.map (fun p => mkItemJson p.1 p.2) ++ j :: rest)).bind _ = .error e
    rw [ihr]
    rfl

/-- The array wrapper: a non-empty array fails with the first offending
entry's error. -/
theorem validateItems_prefix_err (pre : List (ℚ × ℚ)) (j : Json)
    (rest : List Json) (e : String)
    (hpre : ∀ p ∈ pre, 1 ≤ p.2)
    (hj : checkItem pre.length j = .error e) :
    validateItems (.arr (pre.map (fun p => mkItemJson p.1 p.2) ++ j :: rest)) = .error e := by
  unfold validateItems
  dsimp only
  rw [if_neg (by simp [List.isEmpty_iff])]
  have := checkItemList_prefix_err pre 0 j rest e hpre (by simpa using hj)
  exact this

/-- C7: a well-shaped line item with quantity at least 1 is accepted
with its quantity floored to an integer; an item with quantity below 1
or a non-numeric id makes the whole extraction fail with the
validation error naming the offending index; and the handler then
responds 400 with no persistence and no calls. -/
theorem c7_item_validation :
    (∀ (idx : Nat) (i q : ℚ), 1 ≤ q →
       checkItem idx (mkItemJson i q) = .ok { id := i, quantity := Rat.floor q }) ∧
    (∀ (pre : List (ℚ × ℚ)) (i q : ℚ) (rest : List Json),
       (∀ p ∈ pre, 1 ≤ p.2) → q < 1 →
       validateItems (.arr (pre.map (fun p => mkItemJson p.1 p.2) ++ mkItemJson i q :: rest)) =
         .error (itemErrMsg pre.length)) ∧
    (∀ (pre : List (ℚ × ℚ)) (s : String) (q : ℚ) (rest : List Json),
       (∀ p ∈ pre, 1 ≤ p.2) →
       validateItems (.arr (pre.map (fun p => mkItemJson p.1 p.2) ++ (Json.obj [("id", .str s), ("quantity", .num q)]) :: rest)) =
         .error (itemErrMsg pre.length)) ∧
    (∀ (env : Env) (secret : String) (ev : StripeEvent) (db : Db) (j : Json) (m : String),
       secret ≠ "" → ev.type = "checkout.session.completed" →
       strOptTruthy ev.session.shipping_details = true →
       strOptTruthy ev.session.items = true →
       strOptTruthy ev.session.payment_intent = true →
       (∃ sa, env.parseShipping (ev.session.shipping_details.getD "") = .ok sa) →
       env.parseItems (ev.session.items.getD "") = .ok j →
       validateItems j = .error m →
       stripeWebhookHandler env secret (.ok ev) db =
         ({ status := 400, body := .jsonError ("Webhook Error: Invalid metadata format - " ++ m) }, db, [])) := by
  refine ⟨checkItem_ok, ?_, ?_, ?_⟩
  · intro pre i q rest hpre hq
    exact validateItems_prefix_err pre _ rest _ hpre (checkItem_err_qty pre.length i q hq)
  · intro pre s q rest hpre
    exact validateItems_prefix_err pre _ rest _ hpre (checkItem_err_id pre.length s q)
  · intro env secret ev db j m hs ht h1 h2 h3 hsa hj hval
    unfold stripeWebhookHandler
    rw [if_neg (by simpa using hs)]
    dsimp only
    rw [if_pos (by simpa using ht)]
    unfold extractIntent
    rw [if_neg (by simp [h1, h2, h3])]
    obtain ⟨sa, hsa⟩ := hsa
    rw [hsa]
    dsimp only
    rw [hj]
    dsimp only
    rw [hval]

/-- Witness for C7 at concrete inputs: quantity 2.9 floors to 2,
quantity 0 at index 1 fails the whole extraction naming index 1, a
string id fails naming index 0, and the handler answers 400 leaving
the store untouched. -/
theorem c7_item_validation_witness :
    checkItem 0 (mkItemJson 10 (29/10)) = .ok { id := 10, quantity := 2 } ∧
    validateItems itemsJsonQ = .error (itemErrMsg 1) ∧
    validateItems (.arr [Json.obj [("id", .str "x"), ("quantity", .num 2)]]) = .error (itemErrMsg 0) ∧
    stripeWebhookHandler envQ "whsec" (.ok ev0) db0 =
      ({ status := 400, body := .jsonError ("Webhook Error: Invalid metadata format - " ++ itemErrMsg 1) }, db0, []) := by
  refine ⟨?_, ?_, ?_, ?_⟩
  · rw [c7_item_validation.1 0 10 (29/10) (by norm_num)]
    norm_num [Rat.floor]
  · have := c7_item_validation.2.1 [(10, 1)] 11 0 [] (by norm_num) (by norm_num)
    simpa [itemsJsonQ] using this
  · simpa using c7_item_validation.2.2.1 [] "x" 2 []
      (by intro p hp; simp at hp)
  · exact c7_item_validation.2.2.2 envQ "whsec" ev0 db0 itemsJsonQ (itemErrMsg 1)
      (by decide) rfl (by decide) (by decide) (by decide) ⟨sa0, rfl⟩ rfl rfl

/-- C6: a request whose signature does not verify against the HMAC of
the raw body under the configured (non-empty) secret is answered 400,
the store is untouched and no external call is made. -/
theorem c6_signature_gate (hmac : String → String → String) (env : Env)
    (secret rawBody sig : String) (decoded : StripeEvent) (db : Db)
    (hs : secret ≠ "") (hsig : sig ≠ hmac secret rawBody) :
    (stripeWebhookHandler env secret (constructEvent hmac secret rawBody sig decoded) db).1.status = 400 ∧
    (stripeWebhookHandler env secret (constructEvent hmac secret rawBody sig decoded) db).2.1 = db ∧
    (stripeWebhookHandler env secret (constructEvent hmac secret rawBody sig decoded) db).2.2 = [] := by
  have hce : constructEvent hmac secret rawBody sig decoded =
      .error "No signatures found matching the expected signature for payload" := by
    unfold constructEvent
    rw [if_neg (by simpa using hsig)]
  unfold stripeWebhookHandler
  rw [hce, if_neg (by simpa using hs)]
  exact ⟨rfl, rfl, rfl⟩

/-- Witness for C6: a concrete mismatched signature yields 400 with no
state change and no calls. -/
theorem c6_signature_gate_witness :
    (stripeWebhookHandler env0 "whsec" (constructEvent hmac0 "whsec" "BODY" "bad" ev0) db0).1.status = 400 ∧
    (stripeWebhookHandler env0 "whsec" (constructEvent hmac0 "whsec" "BODY" "bad" ev0) db0).2.1 = db0 ∧
    (stripeWebhookHandler env0 "whsec" (constructEvent hmac0 "whsec" "BODY" "bad" ev0) db0).2.2 = [] :=
  c6_signature_gate hmac0 env0 "whsec" "BODY" "bad" ev0 db0 (by decide) (by decide)

/-- C1: redelivering a valid checkout-completed event whose payment
reference already has exactly one persisted Order terminates with the
200 already-processed acknowledgement, leaves the store unchanged,
performs only the idempotency lookup (no upsert, no image fetch, no
vendor call, no persistence, no email), and exactly one Order for that
reference remains. -/
theorem c1_idempotent_redelivery (env : Env) (secret : String) (ev : StripeEvent)
    (db : Db) (sa : ShippingDetails) (items : List ValidItem) (pi : String)
    (hs : secret ≠ "") (ht : ev.type = "checkout.session.completed")
    (hex : extractIntent env ev.session = .ok (sa, items, pi))
    (hone : (db.orders.filter (fun o => o.stripePaymentId == some pi)).length = 1) :
    stripeWebhookHandler env secret (.ok ev) db =
      ({ status := 200, body := .jsonReceived (some "Order already processed") none }, db,
       [Effect.orderFindFirst pi]) ∧
    ((stripeWebhookHandler env secret (.ok ev) db).2.1.orders.filter
       (fun o => o.stripePaymentId == some pi)).length = 1 := by
  have hfind : (db.orders.find? (fun o => o.stripePaymentId == some pi)).isSome := by
    rw [List.find?_isSome]
    obtain ⟨o, hfo⟩ := List.length_eq_one.mp hone
    have hmem : o ∈ db.orders.filter (fun o => o.stripePaymentId == some pi) := by
      rw [hfo]; exact List.mem_singleton.mpr rfl
    obtain ⟨h1, h2⟩ := List.mem_filter.mp hmem
    exact ⟨o, h1, h2⟩
  obtain ⟨o, ho⟩ := Option.isSome_iff_exists.mp hfind
  have h := handler_eq_processIntent env secret ev db sa items pi hs ht hex
  rw [h]
  unfold processIntent
  rw [ho]
  exact ⟨rfl, hone⟩

/-- Witness for C1: redelivery of the pi_1 event against the store that
already holds the pi_1 order acknowledges without reprocessing. -/
theorem c1_idempotent_redelivery_witness :
    stripeWebhookHandler env0 "whsec" (.ok ev0) db1x =
      ({ status := 200, body := .jsonReceived (some "Order already processed") none }, db1x,
       [Effect.orderFindFirst "pi_1"]) ∧
    ((stripeWebhookHandler env0 "whsec" (.ok ev0) db1x).2.1.orders.filter
       (fun o => o.stripePaymentId == some "pi_1")).length = 1 :=
  c1_idempotent_redelivery env0 "whsec" ev0 db1x sa0 items0 "pi_1"
    (by decide) rfl rfl (by decide)

/-- C3: if materialization fails for any item (missing record or empty
URL) or any vendor product provisioning fails, the handler answers
500 and the orders table is untouched (zero Orders, hence zero
OrderItems, persisted); moreover on a materialization failure no
vendor call at all appears in the trace. -/
theorem c3_all_or_nothing (env : Env) (secret : String) (ev : StripeEvent)
    (db : Db) (sa : ShippingDetails) (items : List ValidItem) (pi : String)
    (hs : secret ≠ "") (ht : ev.type = "checkout.session.completed")
    (hex : extractIntent env ev.session = .ok (sa, items, pi))
    (hnone : db.orders.find? (fun o => o.stripePaymentId == some pi) = none)
    (hfail : (∃ m, materializeOutcome db items = .error m) ∨
             (∃ ms m, materializeOutcome db items = .ok ms ∧
                collectAll (ms.map (provisionItem env)) = .error m)) :
    (stripeWebhookHandler env secret (.ok ev) db).1.status = 500 ∧
    (stripeWebhookHandler env secret (.ok ev) db).2.1.orders = db.orders ∧
    ((∃ m, materializeOutcome db items = .error m) →
      (∀ u, Effect.vendorCreateProduct u ∉ (stripeWebhookHandler env secret (.ok ev) db).2.2) ∧
      (∀ x, Effect.vendorCreateOrder x ∉ (stripeWebhookHandler env secret (.ok ev) db).2.2)) := by
  rw [handler_eq_processIntent env secret ev db sa items pi hs ht hex]
  unfold processIntent
  rw [hnone]
  dsimp only
  rw [materializeOutcome_userUpsert]
  rcases hfail with ⟨m, hm⟩ | ⟨ms, m, hms, hcoll⟩
  · rw [hm]
    refine ⟨rfl, userUpsert_orders db sa, ?_⟩
    intro _
    constructor <;> intro u <;> simp
  · rw [hms]
    dsimp only
    rw [hcoll]
    refine ⟨rfl, userUpsert_orders db sa, ?_⟩
    rintro ⟨m2, hm2⟩
    simp at hm2

/-- Witness for C3 at Scenario B: image 11 missing yields a 500, the
orders table stays empty, and no vendor call was issued. -/
theorem c3_all_or_nothing_witness :
    (stripeWebhookHandler env0 "whsec" (.ok ev0) dbB).1.status = 500 ∧
    (stripeWebhookHandler env0 "whsec" (.ok ev0) dbB).2.1.orders = dbB.orders ∧
    Effect.vendorCreateProduct "http://img/10.png" ∉ (stripeWebhookHandler env0 "whsec" (.ok ev0) dbB).2.2 ∧
    Effect.vendorCreateOrder "pi_1" ∉ (stripeWebhookHandler env0 "whsec" (.ok ev0) dbB).2.2 := by
  have h := c3_all_or_nothing env0 "whsec" ev0 dbB sa0 items0 "pi_1"
    (by decide) rfl rfl rfl (Or.inl ⟨imageNotFoundMsg 11, rfl⟩)
  exact ⟨h.1, h.2.1, (h.2.2 ⟨imageNotFoundMsg 11, rfl⟩).1 "http://img/10.png",
         (h.2.2 ⟨imageNotFoundMsg 11, rfl⟩).2 "pi_1"⟩

/-- C9: once the Order and its items are durably persisted, the
handler acknowledges 200 with the created order id and the store
db2 from the persistence stage, whatever the Resend call returns —
env.sendEmail is entirely unconstrained here, so a failing dispatch
yields the same response, the same persisted rows and the same trace
as a successful one. -/
theorem c9_email_failure_swallowed (env : Env) (secret : String) (ev : StripeEvent)
    (db : Db) (sa : ShippingDetails) (items : List ValidItem) (pi : String)
    (ms : List MatItem) (ps : List ProvItem) (ls : List VendorLineItem)
    (poid : String) (order : Order) (db2 : Db)
    (hs : secret ≠ "") (ht : ev.type = "checkout.session.completed")
    (hex : extractIntent env ev.session = .ok (sa, items, pi))
    (hnone : db.orders.find? (fun o => o.stripePaymentId == some pi) = none)
    (hmat : materializeOutcome db items = .ok ms)
    (hprov : collectAll (ms.map (provisionItem env)) = .ok ps)
    (hline : mkVendorLineItems ps = .ok ls)
    (hvord : env.createOrder { shippingAddress := sa, external_id := pi, line_items := ls } = .ok poid)
    (hpers : persistOrderStage (db.userUpsert sa).2 (db.userUpsert sa).1.id poid pi sa ps =
      (.ok (order, db2), [Effect.orderCreate pi])) :
    stripeWebhookHandler env secret (.ok ev) db =
      ({ status := 200, body := .jsonReceived none (some order.id) }, db2,
       [Effect.orderFindFirst pi, Effect.userUpsert sa.email,
        Effect.imageFindMany (items.map (·.id))] ++ provisionEffects ms ++
       [Effect.vendorCreateOrder pi, Effect.orderCreate pi, Effect.emailSend sa.email]) := by
  rw [handler_eq_processIntent env secret ev db sa items pi hs ht hex]
  unfold processIntent
  rw [hnone]
  dsimp only
  rw [materializeOutcome_userUpsert, hmat]
  dsimp only
  rw [hprov]
  dsimp only
  rw [hline]
  dsimp only
  rw [hvord]
  dsimp only
  rw [hpers]
  dsimp only
  cases env.sendEmail sa.email <;> simp

/-- Witness for C9: with a failing mailer the handler still answers 200
with order id 1 and commits the same rows. -/
theorem c9_email_failure_swallowed_witness :
    stripeWebhookHandler envFail "whsec" (.ok ev0) db0 =
      ({ status := 200, body := .jsonReceived none (some orderFull.id) }, dbAfterA,
       [Effect.orderFindFirst "pi_1", Effect.userUpsert sa0.email,
        Effect.imageFindMany (items0.map (·.id))] ++ provisionEffects ms0 ++
       [Effect.vendorCreateOrder "pi_1", Effect.orderCreate "pi_1", Effect.emailSend sa0.email]) :=
  c9_email_failure_swallowed envFail "whsec" ev0 db0 sa0 items0 "pi_1"
    ms0 ps0 ls0 "po_1" orderFull dbAfterA
    (by decide) rfl rfl rfl rfl rfl rfl rfl (by decide)

/-- C2 counterexample: when an order for pi_1 was already committed (a
concurrent delivery won the race), the persistence stage surfaces the
unique-constraint violation as a 500 database-error response to the
caller — it is not resolved to the already-processed success. -/
theorem c2_unique_violation_counterexample :
    (persistOrderStage db1x 1 "po_2" "pi_1" sa0 ps0).1 =
      .error { status := 500,
               body := .jsonError "Webhook processing failed: Database error - Unique constraint failed on the fields: (stripePaymentId)" } := by
  decide

/-- C2 amended: whenever the Order write hits the unique constraint on
the payment reference (a row for that reference already exists), the
stage returns the 500 database-error response; the handler has no
special case turning this into the already-processed outcome. -/
theorem c2_unique_violation_amended (db : Db) (uid : ℕ) (poid pi : String)
    (sa : ShippingDetails) (ps : List ProvItem) (ds : List OrderItemData)
    (hex : ∃ o ∈ db.orders, o.stripePaymentId = some pi)
    (hds : mkOrderItemsData ps = .ok ds) :
    persistOrderStage db uid poid pi sa ps =
      (.error { status := 500,
                body := .jsonError "Webhook processing failed: Database error - Unique constraint failed on the fields: (stripePaymentId)" },
       [Effect.orderCreate pi]) := by
  have hany : (db.orders.any (fun o => o.stripePaymentId == some pi)) = true := by
    rw [List.any_eq_true]
    obtain ⟨o, ho, hpi⟩ := hex
    exact ⟨o, ho, by simp [hpi]⟩
  have hoc : db.orderCreate uid poid pi "processing" ds sa =
      .error "Unique constraint failed on the fields: (stripePaymentId)" := by
    unfold Db.orderCreate
    rw [if_pos hany]
  unfold persistOrderStage
  rw [hds]
  dsimp only
  rw [hoc]
  rfl

/-- Witness for C2 amended at the concrete race input. -/
theorem c2_unique_violation_amended_witness :
    persistOrderStage db1x 1 "po_2" "pi_1" sa0 ps0 =
      (.error { status := 500,
                body := .jsonError "Webhook processing failed: Database error - Unique constraint failed on the fields: (stripePaymentId)" },
       [Effect.orderCreate "pi_1"]) :=
  c2_unique_violation_amended db1x 1 "po_2" "pi_1" sa0 ps0 ds0
    ⟨orderA, by decide, rfl⟩ (by decide)

/-- A successful persistence appends exactly one order, created with
status processing. -/
theorem persistOrderStage_ok_orders (db : Db) (uid : ℕ) (poid pi : String)
    (sa : ShippingDetails) (ps : List ProvItem) (o : Order) (db2 : Db)
    (eff : List Effect)
    (h : persistOrderStage db uid poid pi sa ps = (.ok (o, db2), eff)) :
    db2.orders = db.orders ++ [o] ∧ o.status = "processing" := by
  unfold persistOrderStage at h
  cases hds : mkOrderItemsData ps with
  | error m =>
    rw [hds] at h
    simp at h
  | ok ds =>
    rw [hds] at h
    dsimp only at h
    unfold Db.orderCreate at h
    by_cases hany : (db.orders.any (fun o => o.stripePaymentId == some pi)) = true
    · rw [if_pos hany] at h
      simp at h
    · rw [if_neg hany] at h
      dsimp only at h
      simp only [Prod.mk.injEq, Except.ok.injEq] at h
      obtain ⟨⟨ho, hdb⟩, _⟩ := h
      subst ho
      subst hdb
      exact ⟨rfl, rfl⟩

/-- Every order present after a fulfillment run either pre-existed or
was created by the run. -/
theorem processIntent_orders (env : Env) (db : Db) (sa : ShippingDetails)
    (items : List ValidItem) (pi : String) :
    ∀ o ∈ (processIntent env db sa items pi).2.1.orders,
      o ∈ db.orders ∨ o.status = "processing" := by
  intro o ho
  unfold processIntent at ho
  cases hfind : List.find? (fun x => x.stripePaymentId == some pi) db.orders with
  | some o2 =>
    rw [hfind] at ho
    exact Or.inl ho
  | none =>
    rw [hfind] at ho
    dsimp only at ho
    rw [materializeOutcome_userUpsert] at ho
    cases hmat : materializeOutcome db items with
    | error m =>
      rw [hmat] at ho
      dsimp only at ho
      rw [userUpsert_orders] at ho
      exact Or.inl ho
    | ok ms =>
      rw [hmat] at ho
      dsimp only at ho
      cases hcoll : collectAll (List.map (provisionItem env) ms) with
      | error m =>
        rw [hcoll] at ho
        dsimp only at ho
        rw [userUpsert_orders] at ho
        exact Or.inl ho
      | ok ps =>
        rw [hcoll] at ho
        dsimp only at ho
        cases hline : mkVendorLineItems ps with
        | error m =>
          rw [hline] at ho
          dsimp only at ho
          rw [userUpsert_orders] at ho
          exact Or.inl ho
        | ok lineItems =>
          rw [hline] at ho
          dsimp only at ho
          cases hvord : env.createOrder { shippingAddress := sa, external_id := pi, line_items := lineItems } with
          | error m =>
            rw [hvord] at ho
            dsimp only at ho
            rw [userUpsert_orders] at ho
            exact Or.inl ho
          | ok poid =>
            rw [hvord] at ho
            dsimp only at ho
            cases hpers : persistOrderStage (db.userUpsert sa).2 (db.userUpsert sa).1.id poid pi sa ps with
            | mk res effP =>
              rw [hpers] at ho
              cases res with
              | error resp =>
                dsimp only at ho
                rw [userUpsert_orders] at ho
                exact Or.inl ho
              | ok odb =>
                cases odb with
                | mk order db2 =>
                  obtain ⟨hords, hstat⟩ :=
                    persistOrderStage_ok_orders _ _ _ _ _ _ _ _ _ hpers
                  dsimp only at ho
                  cases hmail : env.sendEmail sa.email with
                  | error me =>
                    rw [hmail] at ho
                    dsimp only at ho
                    rw [hords] at ho
                    rcases List.mem_append.mp ho with h | h
                    · rw [userUpsert_orders] at h
                      exact Or.inl h
                    · have hoe := List.mem_singleton.mp h
                      subst hoe
                      exact Or.inr hstat
                  | ok mu =>
                    rw [hmail] at ho
                    dsimp only at ho
                    rw [hords] at ho
                    rcases List.mem_append.mp ho with h | h
                    · rw [userUpsert_orders] at h
                      exact Or.inl h
                    · have hoe := List.mem_singleton.mp h
                      subst hoe
                      exact Or.inr hstat

/-- C4 counterexample: starting from a store with no orders, a
successful delivery leaves exactly one order whose status at creation
is processing — the order was created directly in a state other than
pending. -/
theorem c4_pending_counterexample :
    db0.orders = [] ∧
    (stripeWebhookHandler env0 "whsec" (.ok ev0) db0).2.1.orders.map (fun o => o.status) =
      ["processing"] := by
  decide

/-- C4 amended: every Order the post-payment workflow creates is
created directly with status processing, in the single persistence
call after vendor submission succeeds; no order is ever created in
status pending by this workflow. -/
theorem c4_processing_at_creation (env : Env) (secret : String)
    (verify : Except String StripeEvent) (db : Db) :
    ∀ o ∈ (stripeWebhookHandler env secret verify db).2.1.orders,
      o ∈ db.orders ∨ o.status = "processing" := by
  intro o ho
  unfold stripeWebhookHandler at ho
  split at ho
  · exact Or.inl ho
  · split at ho
    · exact Or.inl ho
    · split at ho
      · split at ho
        · exact Or.inl ho
        · exact processIntent_orders _ _ _ _ _ o ho
      · exact Or.inl ho

/-- Witness for C4 amended: the order committed by the concrete
successful run carries status processing. -/
theorem c4_processing_at_creation_witness :
    orderFull ∈ db0.orders ∨ orderFull.status = "processing" :=
  c4_processing_at_creation env0 "whsec" (.ok ev0) db0 orderFull (by decide)

/-- C8, the code bug at the failing input: the vendor-reported status
equals the stored status, yet the controller still takes the write
branch — the value compared is the whole vendor order object, never
strictly equal to the status string — attempts the status write with
that object, and the request fails 500 instead of answering 200 with
the row left alone. -/
theorem c8_status_refresh_bug :
    pdata8.status = orderA.status ∧
    (getOrderStatusController "shop1" fetch8 db1x (some 1)).2.2 =
      [OrderCtrlEffect.orderFindUnique 1, OrderCtrlEffect.vendorFetchOrder "po_1",
       OrderCtrlEffect.orderUpdateStatus 1 (.orderObj pdata8)] ∧
    (getOrderStatusController "shop1" fetch8 db1x (some 1)).1 = CtrlResult.serverError500 := by
  decide

/-- C10: for an empty image URL or one not starting with http, product
provisioning does not fail — the upload call silently carries the
hard-coded Unsplash placeholder instead of the given URL, and the
product is created bound to that placeholder upload. -/
theorem c10_placeholder_substitution (env : PrintifyServiceEnv) (imageUrl : String)
    (uid pid : String) (v0 : PrintifyVariantInfo) (vs : List PrintifyVariantInfo)
    (hbad : imageUrl = "" ∨ jsStartsWith imageUrl "http" = false)
    (hup : env.uploadImage testImageUrl = .ok uid)
    (hvar : env.getVariants 1268 215 = .ok (v0 :: vs))
    (hv0 : v0.id ≠ 0)
    (hpp : env.postProduct 1268 215 v0.id uid = .ok pid)
    (hpid : pid ≠ "") :
    createProduct env imageUrl =
      (.ok { productId := pid, variantId := v0.id, providerId := 215 },
       [.upload testImageUrl, .variants 1268 215, .productPost 1268 215 v0.id uid]) ∧
    PrintifyCallEffect.upload imageUrl ∉ (createProduct env imageUrl).2 := by
  have heu : effectiveUploadUrl imageUrl = testImageUrl := by
    unfold effectiveUploadUrl
    rcases hbad with h | h
    · rw [if_pos (by simp [h])]
    · rw [if_pos (by simp [h])]
  have hne : imageUrl ≠ testImageUrl := by
    intro he
    rcases hbad with h | h
    · rw [he] at h
      exact absurd h (by decide)
    · rw [he] at h
      exact absurd h (by decide)
  have hupl : uploadImageToPrintify env imageUrl = (.ok uid, [.upload testImageUrl]) := by
    unfold uploadImageToPrintify
    rw [heu]
    dsimp only
    rw [hup]
  unfold createProduct
  dsimp only
  rw [hupl]
  dsimp only
  rw [hvar]
  dsimp only
  rw [if_neg (by simpa using hv0), hpp]
  dsimp only
  rw [if_neg (by simpa using hpid)]
  exact ⟨rfl, by simp [hne]⟩

/-- Witness for C10: a relative-path URL is silently replaced by the
placeholder and provisioning succeeds. -/
theorem c10_placeholder_substitution_witness :
    createProduct penv0 "desk.png" =
      (.ok { productId := "prodX", variantId := 55, providerId := 215 },
       [.upload testImageUrl, .variants 1268 215,
        .productPost 1268 215 55 ("img-" ++ testImageUrl)]) ∧
    PrintifyCallEffect.upload "desk.png" ∉ (createProduct penv0 "desk.png").2 :=
  c10_placeholder_substitution penv0 "desk.png" ("img-" ++ testImageUrl) "prodX"
    { id := 55, title := "2x2" } [] (Or.inr (by decide)) rfl rfl (by decide) rfl (by decide)

end ChaosStickers
